import Mathlib

/-!
Shallow embedding of the two Blender automation scripts of this repository:
`generate_tunnel.py` (procedural tunnel-lining generator) and
`render_scene.py` (batch render driver).

Python floats are modelled as rationals (`ℚ`); the script only combines the
decimal constants by field operations, so the rational model is the exact
arithmetic the closed-form claims are about.  Trigonometric coordinates are
kept parametric (`cos`, `sin`, `pi` are arguments), so every definition stays
executable; the claims about the mesh builder concern only step and vertex
counts, which do not depend on those parameters.
-/

/-! ### User settings of `generate_tunnel.py` (lines 7-33), as exact rationals -/

/-- Inner radius of the tunnel, `inner_radius = 2.45` (m). -/
def inner_radius : ℚ := 49 / 20

/-- Lining thickness, `thickness = 0.30` (m). -/
def thickness : ℚ := 3 / 10

/-- Length of one ring along the tunnel, `ring_length = 1.5` (m). -/
def ring_length : ℚ := 3 / 2

/-- Smoothness of curvature for a full circle, `full_circle_res = 128`. -/
def full_circle_res : ℚ := 128

/-- Number of big (regular) segments, `regular_count = 5`. -/
def regular_count : ℕ := 5

/-- Key segment angle factor, `key_angle_factor = 0.6`. -/
def key_angle_factor : ℚ := 3 / 5

/-! ### Derived angles (`generate_tunnel.py` lines 38-39) -/

/-- General form of line 38, `regular_angle_deg = 360.0 / (regular_count +
key_angle_factor)`, as a function of the two segmentation settings. -/
def regular_angle (rc kf : ℚ) : ℚ := 360 / (rc + kf)

/-- General form of line 39, `key_angle_deg = regular_angle_deg *
key_angle_factor`. -/
def key_angle (rc kf : ℚ) : ℚ := regular_angle rc kf * kf

/-- The script's concrete `regular_angle_deg` (line 38). -/
def regular_angle_deg : ℚ := regular_angle (regular_count : ℚ) key_angle_factor

/-- The script's concrete `key_angle_deg` (line 39). -/
def key_angle_deg : ℚ := regular_angle_deg * key_angle_factor

/-! ### Segment mesh builder (`make_segment_mesh`, lines 114-162) -/

/-- Python 3 `round` to the nearest integer, ties going to the even integer
(banker's rounding), on exact rationals. -/
def pyRound (x : ℚ) : ℤ :=
  let f := ⌊x⌋
  let frac := x - f
  if frac < 1 / 2 then f
  else if 1 / 2 < frac then f + 1
  else if f % 2 = 0 then f else f + 1

/-- Step count of `make_segment_mesh` (line 117):
`steps = max(8, round(full_circle_res * angle_deg / 360.0))`.
The result of Python `max(8, ...)` is at least `8`, so taking `Int.toNat`
after the `max` loses nothing. -/
def seg_steps (angle_deg : ℚ) : ℕ :=
  (max 8 (pyRound (full_circle_res * angle_deg / 360))).toNat

/-- The four vertices emitted for loop index `i` of `make_segment_mesh`
(lines 130-139): inner back, outer back, inner front, outer front, at the
interpolated angle `t`.  `cos`, `sin` and `pi` are parameters standing for
`math.cos`, `math.sin` and `math.pi`. -/
def seg_vert_ring {α : Type} [Field α] (cos sin : α → α) (pi : α)
    (angle_deg : ℚ) (i : ℕ) : List (α × α × α) :=
  let steps := seg_steps angle_deg
  let a_rad : α := (angle_deg : α) * pi / 180
  let start : α := -a_rad / 2
  let stop : α := a_rad / 2
  let t : α := start + (stop - start) * ((i : α) / (steps : α))
  let c := cos t
  let s := sin t
  let r_in : α := (inner_radius : α)
  let r_out : α := ((inner_radius : ℚ) + thickness : ℚ)
  let y0 : α := ((-(ring_length) / 2 : ℚ) : α)
  let y1 : α := ((ring_length / 2 : ℚ) : α)
  [(r_in * c, y0, r_in * s), (r_out * c, y0, r_out * s),
   (r_in * c, y1, r_in * s), (r_out * c, y1, r_out * s)]

/-- Vertex list of `make_segment_mesh` (lines 122-139): the loop
`for i in range(steps + 1)` appends four vertices per iteration. -/
def make_segment_mesh_verts {α : Type} [Field α] (cos sin : α → α) (pi : α)
    (angle_deg : ℚ) : List (α × α × α) :=
  (List.range (seg_steps angle_deg + 1)).flatMap (seg_vert_ring cos sin pi angle_deg)

/-- Face list of `make_segment_mesh` (lines 141-151): four side quads per
step, plus the two end caps. -/
def make_segment_mesh_faces (angle_deg : ℚ) : List (ℕ × ℕ × ℕ × ℕ) :=
  let steps := seg_steps angle_deg
  ((List.range steps).flatMap (fun i =>
    let b0 := i * 4
    let b1 := (i + 1) * 4
    [(b0, b1, b1 + 2, b0 + 2), (b0 + 1, b0 + 3, b1 + 3, b1 + 1),
     (b0, b0 + 1, b1 + 1, b1), (b0 + 2, b1 + 2, b1 + 3, b0 + 3)]))
  ++ [(0, 2, 3, 1), (steps * 4, steps * 4 + 1, steps * 4 + 3, steps * 4 + 2)]

/-! ### Node-graph instance angles (`generate_tunnel.py` lines 364-415)

The geometry-node chain `index_reg → add_half → angle_reg` computes, for the
point of index `i`, the rotation `(i + 0.5) * math.radians(regular_angle_deg)`;
`key_rot_angle` (line 412) is
`math.radians(regular_count * regular_angle_deg + key_angle_deg / 2)`.
Both are modelled here in degrees: the node stores the same angle scaled by
the positive constant `pi / 180`. -/

/-- Rotation angle, in degrees, assigned to the regular-segment instance of
index `i` (node chain at lines 364-383). -/
def angle_reg_deg (i : ℕ) : ℚ := ((i : ℚ) + 1 / 2) * regular_angle_deg

/-- Rotation angle, in degrees, of the key-segment instance
(`key_rot_angle`, line 412). -/
def key_rot_deg : ℚ := (regular_count : ℚ) * regular_angle_deg + key_angle_deg / 2

/-! ### String primitives

The kernel cannot reduce the byte-position based `String` API, so the string
operations the scripts use (`startswith`, slicing, the `in` operator) are
embedded on the underlying character lists. -/

/-- Python `s.startswith(p)`. -/
def strStartsWith (s p : String) : Bool := p.data.isPrefixOf s.data

/-- Dropping the first `n` characters of `s` (used for `str.removeprefix`). -/
def strDrop (s : String) (n : ℕ) : String := ⟨s.data.drop n⟩

/-- Helper for the Python `in` operator on strings: does `pat` occur as a
contiguous run of `s`? -/
def charsContain : List Char → List Char → Bool
  | pat, [] => pat.isEmpty
  | pat, c :: t => pat.isPrefixOf (c :: t) || charsContain pat t

/-- Python `pat in s` on strings. -/
def strContainsSub (s pat : String) : Bool := charsContain pat.data s.data

/-! ### Render driver state (`render_scene.py`)

Cameras, view layers and the per-view-layer collection hierarchy are the
inputs the driver enumerates; compositor output-file nodes and render
invocations are its observable effects.  Uncaught Python exceptions are
modelled as an `Option String` error that aborts the run. -/

/-- The configured sample constant (`render_scene.py` line 7). -/
def SAMPLES : ℕ := 4096

/-- A camera object as the driver sees it: `obj.name`, `obj.type` (`otype`
here), `obj.hide_render`, `obj.users_collection` (as ids of the collections
the camera belongs to, in order) and the optional `"frame_end"` custom
property read by `camera.get("frame_end", ...)`. -/
structure CameraObj where
  name : String
  otype : String
  hide_render : Bool
  users_collection : List ℕ
  frame_end : Option ℤ
deriving DecidableEq

/-- A layer-collection hierarchy node: its underlying collection (as an id),
its `exclude` flag, and its `children`. -/
inductive LCTree where
  | node (collection : ℕ) (exclude : Bool) (children : List LCTree)

/-- The `exclude` flag of a layer-collection node. -/
def LCTree.exclude : LCTree → Bool
  | .node _ e _ => e

mutual

/-- The recursive search of `render_scene.py` lines 51-60: return the
layer-collection node whose collection is `target`, searching the node
itself and then its children depth-first; `none` when absent. -/
def find_layer_collection : LCTree → ℕ → Option LCTree
  | .node c e ch, target =>
    if c = target then some (.node c e ch) else find_in_children ch target

/-- The `for child_collection in layer_collection.children` loop of
`find_layer_collection`: first hit wins. -/
def find_in_children : List LCTree → ℕ → Option LCTree
  | [], _ => none
  | t :: ts, target =>
    match find_layer_collection t target with
    | some r => some r
    | none => find_in_children ts target

end

/-- A view layer: its name and its root layer collection
(`layer.layer_collection`). -/
structure ViewLayer where
  name : String
  layer_collection : LCTree

/-- Lines 102-103 for one view layer: evaluate
`camera.users_collection[0]` (IndexError when the camera belongs to no
collection), run `find_layer_collection`, then compute
`layer.use = not layer.name.startswith("_") and not layer_collection.exclude`.
Python's `and` short-circuits, so a `"_"`-named layer never dereferences the
possibly-`None` search result; otherwise a `None` result raises
AttributeError. -/
def layer_use (l : ViewLayer) (cam : CameraObj) : Except String Bool :=
  match cam.users_collection.head? with
  | none => .error "IndexError: users_collection"
  | some c0 =>
    let lc := find_layer_collection l.layer_collection c0
    if strStartsWith l.name "_" then .ok false
    else
      match lc with
      | none => .error "AttributeError: NoneType has no attribute exclude"
      | some t => .ok (!t.exclude)

/-- One compositor output pair created for an enabled view layer (lines
114-139): the index and name of the layer, the view name `camera_name`, and
the two path templates handed to `bpy.path.relpath` for the combined-color
and mist file-output nodes. -/
structure OutputNode where
  layerIndex : ℕ
  layerName : String
  cameraName : String
  imagePathArg : String
  mistPathArg : String
deriving DecidableEq

/-- One render invocation (lines 146-149): the camera it renders through,
its stripped `camera_name`, the sample count in effect, and whether the
animation branch was taken. -/
structure RenderEv where
  cam : CameraObj
  cameraName : String
  samples : ℕ
  animation : Bool
deriving DecidableEq

/-- Observable history of a driver run: cameras assigned to `scene.camera`
in order, compositor output nodes created, renders triggered, and the
uncaught exception (if any) that aborted the run. -/
structure DriverLog where
  assigned : List CameraObj
  outputs : List OutputNode
  renders : List RenderEv
  err : Option String
deriving DecidableEq

/-- Python `camera.name.removeprefix("Camera_")` (line 70). -/
def camera_display_name (s : String) : String :=
  if strStartsWith s "Camera_" then strDrop s "Camera_".length else s

/-- Lines 72-74: skip the camera when the `CAMERAS` environment variable is
truthy (set and non-empty) and is not a substring of `camera_name`. -/
def env_filtered (env : Option String) (cname : String) : Bool :=
  match env with
  | none => false
  | some f => if f = "" then false else !strContainsSub cname f

/-- The `for layer in scene.view_layers` loop (lines 100-144) for one
camera: per layer compute `layer.use`; an exception aborts the loop
keeping the nodes already created; a disabled layer is skipped; an enabled
layer contributes one output pair whose path templates get the
`layer.name + "/"` infix exactly when the layer is not
`scene.view_layers[0]` (line 133). -/
def layer_loop (sname cname : String) (cam : CameraObj) :
    List ViewLayer → ℕ → List OutputNode × Option String
  | [], _ => ([], none)
  | l :: rest, i =>
    match layer_use l cam with
    | .error e => ([], some e)
    | .ok false => layer_loop sname cname cam rest (i + 1)
    | .ok true =>
      let pfx := if i = 0 then "" else l.name ++ "/"
      let node : OutputNode :=
        { layerIndex := i, layerName := l.name, cameraName := cname,
          imagePathArg := "renders/" ++ sname ++ "/" ++ pfx ++ "#_" ++ cname,
          mistPathArg := "renders/" ++ sname ++ "/" ++ pfx ++ "m_#_" ++ cname }
      let r := layer_loop sname cname cam rest (i + 1)
      (node :: r.1, r.2)

/-- The `for camera in cameras` loop (lines 66-149).  Per camera: the line
67 skip test (`camera.type != "CAMERA" or "-noimp" in camera.name or
camera.hide_render`), the `CAMERAS` filter, the sample-count selection
(lines 76-79), the `scene.camera = camera` assignment (line 90), the
per-camera frame end (line 91), the view-layer loop, and finally the
animation-or-still render (lines 146-149).  An exception inside the layer
loop aborts the whole run. -/
def run_driver (sname : String) (env : Option String) (layers : List ViewLayer)
    (default_frame_end : ℤ) : List CameraObj → DriverLog
  | [] => ⟨[], [], [], none⟩
  | cam :: rest =>
    if cam.otype != "CAMERA" || strContainsSub cam.name "-noimp" || cam.hide_render then
      run_driver sname env layers default_frame_end rest
    else
      let cname := camera_display_name cam.name
      if env_filtered env cname then
        run_driver sname env layers default_frame_end rest
      else
        let smp := if cname = "0" then 4 else SAMPLES
        let fe := cam.frame_end.getD default_frame_end
        let st := layer_loop sname cname cam layers 0
        match st.2 with
        | some e => ⟨[cam], st.1, [], some e⟩
        | none =>
          let ev : RenderEv := ⟨cam, cname, smp, decide (1 < fe) && decide (fe < 250)⟩
          let r := run_driver sname env layers default_frame_end rest
          ⟨cam :: r.assigned, st.1 ++ r.outputs, ev :: r.renders, r.err⟩

/-- The whole driver: line 64 collects the objects of type `"CAMERA"`, the
loop processes them. -/
def render_scene (sname : String) (env : Option String) (layers : List ViewLayer)
    (default_frame_end : ℤ) (objects : List CameraObj) : DriverLog :=
  run_driver sname env layers default_frame_end
    (objects.filter (fun o => o.otype == "CAMERA"))

/-! ### Cleanup pass (`generate_tunnel.py` lines 49-93)

The relevant slice of `bpy.data`: collections with their member objects (by
name), objects with the mesh datablock they use, mesh datablocks, and node
groups (by name).  `mesh.users` is modelled as the number of objects using
the mesh.  `bpy.data.objects.remove(obj, do_unlink=True)` removes the object
globally and unlinks it from every collection. -/

/-- An object datablock: its name and the name of the mesh it uses. -/
structure BObject where
  name : String
  mesh : Option String
deriving DecidableEq

/-- A collection: its name and the names of its member objects. -/
structure BCollection where
  name : String
  objects : List String
deriving DecidableEq

/-- The slice of `bpy.data` that `clean_old` reads and mutates. -/
structure BState where
  collections : List BCollection
  objects : List BObject
  meshes : List String
  node_groups : List String
deriving DecidableEq

/-- The `kill_names` tuple of `clean_old` (lines 51-68). -/
def kill_names : List String :=
  ["Segment (Regular)", "Segment (Key)", "Bolt Pocket (Top)",
   "Bolt Pocket (Bottom)", "Handle Hole (Top)", "Handle Hole (Bottom)",
   "Bolt Pocket", "Handle Hole", "Tunnel Controller", "TunnelRing",
   "SegReg", "SegKey", "RingGuide", "TBM_Ring", "RingBase", "TBM_Tunnel"]

/-- Line 78-81: an object name is condemned when it equals a denylist entry
or extends one with a `"."` or `"_"` separator. -/
def name_killed (n : String) : Bool :=
  kill_names.any (fun k =>
    n = k || strStartsWith n (k ++ ".") || strStartsWith n (k ++ "_"))

/-- The two collection names removed wholesale (line 71). -/
def kill_coll_names : List String := ["TBM_Ring", "Tunnel"]

/-- The two node-group names removed (line 89). -/
def kill_ng_names : List String := ["TBM_TunnelAlongZ", "TBM_TunnelProcedural"]

/-- Remove the objects named in `dead` from `bpy.data.objects`, unlinking
them from every collection (`do_unlink=True`). -/
def remove_objects (s : BState) (dead : List String) : BState :=
  { s with
    objects := s.objects.filter (fun o => !dead.contains o.name),
    collections := s.collections.map (fun c =>
      { c with objects := c.objects.filter (fun n => !dead.contains n) }) }

/-- The member objects of the collections condemned by name (lines 70-73):
these are the objects the first loop of `clean_old` removes. -/
def coll_victims (s : BState) : List String :=
  (s.collections.filter (fun c => kill_coll_names.contains c.name)).flatMap
    BCollection.objects

/-- Lines 70-74: remove every object of a `"TBM_Ring"` or `"Tunnel"`
collection, then remove those collections themselves. -/
def clean_step1 (s : BState) : BState :=
  let s' := remove_objects s (coll_victims s)
  { s' with collections :=
      s'.collections.filter (fun c => !kill_coll_names.contains c.name) }

/-- Lines 76-82: remove every object whose name matches the denylist. -/
def clean_step2 (s : BState) : BState :=
  remove_objects s ((s.objects.filter (fun o => name_killed o.name)).map BObject.name)

/-- The `users` count of a mesh datablock: how many objects use it. -/
def mesh_users (s : BState) (m : String) : ℕ :=
  (s.objects.filter (fun o => o.mesh == some m)).length

/-- Lines 84-86: remove every mesh datablock with zero users. -/
def clean_step3 (s : BState) : BState :=
  { s with meshes := s.meshes.filter (fun m => !(mesh_users s m == 0)) }

/-- Lines 88-90: remove the two generated node groups. -/
def clean_step4 (s : BState) : BState :=
  { s with node_groups := s.node_groups.filter (fun n => !kill_ng_names.contains n) }

/-- The cleanup pass `clean_old` (lines 49-93): the four removal loops in
program order. -/
def clean_old (s : BState) : BState :=
  clean_step4 (clean_step3 (clean_step2 (clean_step1 s)))

/-- The empty scene: no collections, objects, meshes or node groups. -/
def empty_scene : BState := ⟨[], [], [], []⟩

/-! ### Controller socket assignment (`generate_tunnel.py` lines 556-568)

The modifier's sockets are assigned through host-generated identifiers; the
host-side assignment `mod[identifier] = value` may raise (identifiers shift
between host versions), which is abstracted by a `raises` predicate on the
identifier.  The `try`/`except` block catches any failure, prints a warning
and lets the script continue. -/

/-- One entry of `ng.interface.items_tree`: socket name, host-generated
identifier, and direction (`"INPUT"` or `"OUTPUT"`). -/
structure IfaceSocket where
  name : String
  identifier : String
  in_out : String
deriving DecidableEq

/-- A value assigned to a modifier socket: an object reference or a Python
int or float (floats as exact rationals). -/
inductive SockVal where
  | obj : String → SockVal
  | int : ℤ → SockVal
  | float : ℚ → SockVal
deriving DecidableEq

/-- The seven values assigned in lines 559-565: the two segment objects and
the five geometry-node defaults `gn_ring_count = 10`,
`gn_ring_spacing = 1.5`, `gn_rot_jitter_deg = 40`, `gn_pos_jitter = 0.01`,
`gn_seed = 27`. -/
def controller_input_vals : List SockVal :=
  [.obj "Segment (Regular)", .obj "Segment (Key)", .int 10, .float (3 / 2),
   .int 40, .float (1 / 100), .int 27]

/-- The seven assignment statements `mod[input_sockets[i].identifier] = v`
(lines 559-565), run in order.  Indexing a missing socket raises IndexError;
a raising assignment stops the block; assignments already made stay made. -/
def assign_go (raises : String → Bool) :
    List IfaceSocket → List SockVal → List (String × SockVal) × Option String
  | _, [] => ([], none)
  | [], _ :: _ => ([], some "IndexError: list index out of range")
  | sk :: sks, v :: vs =>
    if raises sk.identifier then
      ([], some ("assignment raised on " ++ sk.identifier))
    else
      let r := assign_go raises sks vs
      ((sk.identifier, v) :: r.1, r.2)

/-- Line 558: the INPUT entries of `ng.interface.items_tree`, in interface
order. -/
def input_sockets (items : List IfaceSocket) : List IfaceSocket :=
  items.filter (fun s => s.in_out == "INPUT")

/-- The body of the `try` block: assign the seven values to the first seven
input sockets. -/
def controller_inputs_try (raises : String → Bool) (items : List IfaceSocket) :
    List (String × SockVal) × Option String :=
  assign_go raises (input_sockets items) controller_input_vals

/-- Result of the guarded block: the socket assignments that took effect and
the warning printed by the `except` branch, if it ran. -/
structure ControllerResult where
  assigned : List (String × SockVal)
  warning : Option String
deriving DecidableEq

/-- Lines 557-568: the `try`/`except` around the socket assignment.  A
value of the form `.error e` would model an exception escaping the block
and aborting generation; the `except Exception` arm turns every failure
into an `.ok` result carrying the printed warning instead. -/
def controller_section (raises : String → Bool) (items : List IfaceSocket) :
    Except String ControllerResult :=
  match controller_inputs_try raises items with
  | (as, none) => .ok ⟨as, none⟩
  | (as, some e) => .ok ⟨as, some ("Could not auto-assign: " ++ e)⟩

/-- A small concrete scene used to exercise the cleanup contract: one
condemned collection, one surviving object, one condemned-by-suffix object,
two orphaned meshes and one condemned node group. -/
def sample_scene : BState :=
  ⟨[⟨"Tunnel", ["Bolt A"]⟩, ⟨"Keep", ["K"]⟩],
   [⟨"Bolt A", some "M1"⟩, ⟨"K", some "M2"⟩,
    ⟨"Segment (Regular).001", some "M3"⟩],
   ["M1", "M2", "M3"], ["TBM_TunnelProcedural", "NG"]⟩

/-! ### Helper lemmas -/

/-- Each loop iteration of `make_segment_mesh` appends exactly four
vertices. -/
theorem seg_vert_ring_length {α : Type} [Field α] (cos sin : α → α) (pi : α)
    (angle_deg : ℚ) (i : ℕ) : (seg_vert_ring cos sin pi angle_deg i).length = 4 := rfl

/-- Flattening a function that always emits `k` elements multiplies the
length by `k`. -/
theorem length_flatMap_const {α β : Type} (f : α → List β) (k : ℕ)
    (hf : ∀ a, (f a).length = k) (l : List α) :
    (l.flatMap f).length = k * l.length := by
  induction l with
  | nil => simp
  | cons a t ih => simp [hf, ih, Nat.mul_succ, Nat.add_comm]

/-! ### Claim theorems -/

/-- C1: for every `regular_count ≥ 1` and `key_angle_factor > 0`, the
derived angles of `generate_tunnel.py` lines 38-39 satisfy
`regular_count * regular_angle + key_angle = 360` exactly over the
rationals. -/
theorem C1_angle_partition (rc kf : ℚ) (h1 : 1 ≤ rc) (h2 : 0 < kf) :
    rc * regular_angle rc kf + key_angle rc kf = 360 := by
  have hne : rc + kf ≠ 0 := by nlinarith
  unfold key_angle regular_angle
  field_simp
  ring

/-- Witness for C1 at the script's own settings `regular_count = 5`,
`key_angle_factor = 0.6`. -/
theorem C1_angle_partition_witness :
    (1 : ℚ) ≤ 5 ∧ (0 : ℚ) < 3 / 5 ∧
      (5 : ℚ) * regular_angle 5 (3 / 5) + key_angle 5 (3 / 5) = 360 :=
  ⟨by norm_num, by norm_num,
    C1_angle_partition 5 (3 / 5) (by norm_num) (by norm_num)⟩

/-- C2: for every arc angle `A` (in degrees), `make_segment_mesh` uses step
count `max(8, round(full_circle_res * A / 360))` and emits exactly
`4 * (steps + 1)` vertices, whatever the host's trigonometric functions
evaluate to. -/
theorem C2_segment_mesh_counts {α : Type} [Field α] (cos sin : α → α)
    (pi : α) (A : ℚ) :
    seg_steps A = (max 8 (pyRound (128 * A / 360))).toNat ∧
    (make_segment_mesh_verts cos sin pi A).length = 4 * (seg_steps A + 1) := by
  refine ⟨rfl, ?_⟩
  unfold make_segment_mesh_verts
  rw [length_flatMap_const _ 4 (seg_vert_ring_length cos sin pi A)]
  simp

/-- C5: with `regular_count = 5`, the regular-segment instance at index `i`
is rotated by `(i + 0.5) * regular_angle` degrees for `i = 0..4`; the five
angles are strictly increasing, and the segments they center span exactly
`5 * regular_angle` (from the lower edge of the first to the upper edge of
the last). -/
theorem C5_regular_instance_angles :
    (angle_reg_deg 0 = (0 + 1 / 2) * regular_angle_deg ∧
     angle_reg_deg 1 = (1 + 1 / 2) * regular_angle_deg ∧
     angle_reg_deg 2 = (2 + 1 / 2) * regular_angle_deg ∧
     angle_reg_deg 3 = (3 + 1 / 2) * regular_angle_deg ∧
     angle_reg_deg 4 = (4 + 1 / 2) * regular_angle_deg) ∧
    (angle_reg_deg 0 < angle_reg_deg 1 ∧ angle_reg_deg 1 < angle_reg_deg 2 ∧
     angle_reg_deg 2 < angle_reg_deg 3 ∧ angle_reg_deg 3 < angle_reg_deg 4) ∧
    (angle_reg_deg 0 - regular_angle_deg / 2 = 0 ∧
     angle_reg_deg 4 + regular_angle_deg / 2 = 5 * regular_angle_deg) := by
  norm_num [angle_reg_deg, regular_angle_deg, regular_angle, regular_count,
    key_angle_factor]

/-- C6: the key-segment instance angle is
`regular_count * regular_angle + key_angle / 2` degrees, and its lower edge
(`key_rot_deg - key_angle_deg / 2`) coincides exactly with the upper edge of
the last regular segment (`angle_reg_deg 4 + regular_angle_deg / 2`):
adjacent, not overlapping. -/
theorem C6_key_instance_angle :
    key_rot_deg = (regular_count : ℚ) * regular_angle_deg + key_angle_deg / 2 ∧
    key_rot_deg - key_angle_deg / 2 = angle_reg_deg 4 + regular_angle_deg / 2 := by
  norm_num [key_rot_deg, angle_reg_deg, key_angle_deg, regular_angle_deg,
    regular_angle, regular_count, key_angle_factor]

/-! ### Render driver lemmas -/

theorem layer_loop_outputs_form (sname cname : String) (cam : CameraObj) :
    ∀ (layers : List ViewLayer) (i : ℕ) (o : OutputNode),
      o ∈ (layer_loop sname cname cam layers i).1 →
      o.cameraName = cname ∧
      o.imagePathArg = "renders/" ++ sname ++ "/" ++
        (if o.layerIndex = 0 then "" else o.layerName ++ "/") ++ "#_" ++ cname ∧
      o.mistPathArg = "renders/" ++ sname ++ "/" ++
        (if o.layerIndex = 0 then "" else o.layerName ++ "/") ++ "m_#_" ++ cname := by
  intro layers
  induction layers with
  | nil => intro i o h; simp [layer_loop] at h
  | cons l rest ih =>
    intro i o h
    unfold layer_loop at h
    cases hu : layer_use l cam with
    | error e => rw [hu] at h; simp at h
    | ok b =>
      rw [hu] at h
      cases b with
      | false => exact ih (i + 1) o h
      | true =>
        simp only [List.mem_cons] at h
        rcases h with ho | hrest
        · subst ho
          refine ⟨rfl, ?_, ?_⟩ <;> simp
        · exact ih (i + 1) o hrest

theorem run_driver_outputs_form (sname : String) (env : Option String)
    (layers : List ViewLayer) (dfe : ℤ) :
    ∀ (cams : List CameraObj) (o : OutputNode),
      o ∈ (run_driver sname env layers dfe cams).outputs →
      o.imagePathArg = "renders/" ++ sname ++ "/" ++
        (if o.layerIndex = 0 then "" else o.layerName ++ "/") ++ "#_" ++ o.cameraName ∧
      o.mistPathArg = "renders/" ++ sname ++ "/" ++
        (if o.layerIndex = 0 then "" else o.layerName ++ "/") ++ "m_#_" ++ o.cameraName := by
  intro cams
  induction cams with
  | nil => intro o h; simp [run_driver] at h
  | cons cam rest ih =>
    intro o h
    unfold run_driver at h
    simp only [] at h
    split at h
    · exact ih o h
    · split at h
      · exact ih o h
      · split at h
        · obtain ⟨hc, hi, hm⟩ :=
            layer_loop_outputs_form sname (camera_display_name cam.name) cam layers 0 o h
          rw [hc]
          exact ⟨hi, hm⟩
        · simp only [List.mem_append] at h
          rcases h with h1 | h2
          · obtain ⟨hc, hi, hm⟩ :=
              layer_loop_outputs_form sname (camera_display_name cam.name) cam layers 0 o h1
            rw [hc]
            exact ⟨hi, hm⟩
          · exact ih o h2

theorem run_driver_samples (sname : String) (env : Option String)
    (layers : List ViewLayer) (dfe : ℤ) :
    ∀ (cams : List CameraObj) (ev : RenderEv),
      ev ∈ (run_driver sname env layers dfe cams).renders →
      ev.cameraName = camera_display_name ev.cam.name ∧
      ev.samples = if camera_display_name ev.cam.name = "0" then 4 else SAMPLES := by
  intro cams
  induction cams with
  | nil => intro ev h; simp [run_driver] at h
  | cons cam rest ih =>
    intro ev h
    unfold run_driver at h
    simp only [] at h
    split at h
    · exact ih ev h
    · split at h
      · exact ih ev h
      · split at h
        · simp at h
        · simp only [List.mem_cons] at h
          rcases h with hev | hrest
          · subst hev
            exact ⟨rfl, rfl⟩
          · exact ih ev hrest

theorem run_driver_skips (sname : String) (env : Option String)
    (layers : List ViewLayer) (dfe : ℤ) (c : CameraObj)
    (hskip : strContainsSub c.name "-noimp" = true ∨ c.hide_render = true) :
    ∀ cams : List CameraObj,
      c ∉ (run_driver sname env layers dfe cams).assigned ∧
      ∀ ev ∈ (run_driver sname env layers dfe cams).renders, ev.cam ≠ c := by
  intro cams
  induction cams with
  | nil => simp [run_driver]
  | cons cam rest ih =>
    unfold run_driver
    simp only []
    split
    · exact ih
    · rename_i hns
      have hcamne : cam ≠ c := by
        intro hEq
        subst hEq
        simp only [Bool.or_eq_true, not_or, Bool.not_eq_true] at hns
        rcases hskip with hs | hs
        · rw [hns.1.2] at hs; exact Bool.false_ne_true hs
        · rw [hns.2] at hs; exact Bool.false_ne_true hs
      split
      · exact ih
      · split
        · refine ⟨?_, ?_⟩
          · simp only [List.mem_singleton]
            exact fun hEq => hcamne hEq.symm
          · intro ev hev
            simp at hev
        · refine ⟨?_, ?_⟩
          · simp only [List.mem_cons, not_or]
            exact ⟨fun hEq => hcamne hEq.symm, ih.1⟩
          · intro ev hev
            simp only [List.mem_cons] at hev
            rcases hev with hev | hev
            · subst hev
              simpa using hcamne
            · exact ih.2 ev hev

theorem layer_use_eq_none (l : ViewLayer) (c : CameraObj)
    (hc : c.users_collection.head? = none) :
    layer_use l c = .error "IndexError: users_collection" := by
  unfold layer_use
  rw [hc]

theorem layer_use_eq_some (l : ViewLayer) (c : CameraObj) (c0 : ℕ)
    (hc0 : c.users_collection.head? = some c0) :
    layer_use l c =
      (if strStartsWith l.name "_" then Except.ok false
       else
         match find_layer_collection l.layer_collection c0 with
         | none => Except.error "AttributeError: NoneType has no attribute exclude"
         | some t => Except.ok (!t.exclude)) := by
  unfold layer_use
  rw [hc0]

theorem layer_loop_err_find (sname cname : String) (c : CameraObj) (c0 : ℕ)
    (hc0 : c.users_collection.head? = some c0) :
    ∀ (layers : List ViewLayer) (i : ℕ),
      (∃ l ∈ layers, strStartsWith l.name "_" = false ∧
        (find_layer_collection l.layer_collection c0).isNone = true) →
      ((layer_loop sname cname c layers i).2).isSome = true := by
  intro layers
  induction layers with
  | nil => intro i h; simp at h
  | cons l' rest ih =>
    intro i h
    obtain ⟨l, hl, hu, hf⟩ := h
    unfold layer_loop
    cases hlu : layer_use l' c with
    | error e => simp
    | ok b =>
      rcases List.mem_cons.mp hl with rfl | hl'
      · exfalso
        rw [layer_use_eq_some l c c0 hc0] at hlu
        rw [Option.isNone_iff_eq_none] at hf
        rw [if_neg (by simp [hu])] at hlu
        rw [hf] at hlu
        exact Except.noConfusion hlu
      · cases b with
        | false => exact ih (i + 1) ⟨l, hl', hu, hf⟩
        | true => exact ih (i + 1) ⟨l, hl', hu, hf⟩

theorem layer_loop_err_nocoll (sname cname : String) (c : CameraObj)
    (hc : c.users_collection = []) (layers : List ViewLayer) (hne : layers ≠ [])
    (i : ℕ) : ((layer_loop sname cname c layers i).2).isSome = true := by
  cases layers with
  | nil => exact absurd rfl hne
  | cons l rest =>
    unfold layer_loop
    rw [layer_use_eq_none l c (by rw [hc]; rfl)]
    simp

theorem run_driver_err (sname : String) (env : Option String)
    (layers : List ViewLayer) (dfe : ℤ) (c : CameraObj)
    (htype : c.otype = "CAMERA")
    (hnoimp : strContainsSub c.name "-noimp" = false)
    (hhide : c.hide_render = false)
    (henv : env_filtered env (camera_display_name c.name) = false)
    (hbad : (c.users_collection = [] ∧ layers ≠ []) ∨
      (∃ c0, c.users_collection.head? = some c0 ∧
        ∃ l ∈ layers, strStartsWith l.name "_" = false ∧
          (find_layer_collection l.layer_collection c0).isNone = true)) :
    ∀ cams : List CameraObj, c ∈ cams →
      ((run_driver sname env layers dfe cams).err).isSome = true := by
  have hloop : ∀ i, ((layer_loop sname (camera_display_name c.name) c layers i).2).isSome = true := by
    intro i
    rcases hbad with ⟨hc, hne⟩ | ⟨c0, hc0, hex⟩
    · exact layer_loop_err_nocoll sname (camera_display_name c.name) c hc layers hne i
    · exact layer_loop_err_find sname (camera_display_name c.name) c c0 hc0 layers i hex
  intro cams
  induction cams with
  | nil => intro h; simp at h
  | cons cam rest ih =>
    intro hmem
    unfold run_driver
    simp only []
    split
    · rename_i hcond
      rcases List.mem_cons.mp hmem with rfl | hrest
      · exfalso
        simp [htype, hnoimp, hhide] at hcond
      · exact ih hrest
    · split
      · rename_i hcond henvf
        rcases List.mem_cons.mp hmem with rfl | hrest
        · exfalso
          rw [henv] at henvf
          exact Bool.false_ne_true henvf
        · exact ih hrest
      · rcases List.mem_cons.mp hmem with rfl | hrest
        · split
          · simp
          · rename_i heq
            have hl0 := hloop 0
            rw [heq] at hl0
            simp at hl0
        · split
          · simp
          · exact ih hrest

/-! ### Cleanup pass lemmas -/

theorem contains_eq_false_iff (l : List String) (a : String) :
    l.contains a = false ↔ a ∉ l := by
  constructor
  · intro h hmem
    have hc : l.contains a = true := by simpa using hmem
    rw [h] at hc
    exact Bool.false_ne_true hc
  · intro h
    by_contra hb
    rw [Bool.not_eq_false] at hb
    exact h (by simpa using hb)

theorem remove_objects_nil (s : BState) : remove_objects s [] = s := by
  unfold remove_objects
  have h1 : s.objects.filter (fun o => !([] : List String).contains o.name) = s.objects :=
    List.filter_eq_self.mpr (fun o _ => by simp)
  have h2 : s.collections.map (fun c =>
      { c with objects := c.objects.filter (fun n => !([] : List String).contains n) }) =
      s.collections := by
    conv_rhs => rw [← List.map_id s.collections]
    refine List.map_congr_left (fun c _ => ?_)
    have hc : c.objects.filter (fun n => !([] : List String).contains n) = c.objects :=
      List.filter_eq_self.mpr (fun n _ => by simp)
    simp [hc]
  rw [h1, h2]

theorem clean_step1_coll_names (s : BState) :
    ∀ c ∈ (clean_step1 s).collections, kill_coll_names.contains c.name = false := by
  intro c hc
  unfold clean_step1 at hc
  simp only [] at hc
  simpa using (List.mem_filter.mp hc).2

theorem remove_objects_coll_mem (s : BState) (dead : List String) (c : BCollection)
    (hc : c ∈ (remove_objects s dead).collections) :
    ∃ c' ∈ s.collections, c.name = c'.name := by
  unfold remove_objects at hc
  simp only [List.mem_map] at hc
  obtain ⟨c', hc', rfl⟩ := hc
  exact ⟨c', hc', rfl⟩

theorem clean_old_coll_names (s : BState) :
    ∀ c ∈ (clean_old s).collections, kill_coll_names.contains c.name = false := by
  intro c hc
  have h : (clean_old s).collections = (clean_step2 (clean_step1 s)).collections := rfl
  rw [h] at hc
  obtain ⟨c', hc', hname⟩ := remove_objects_coll_mem _ _ c hc
  rw [hname]
  exact clean_step1_coll_names s c' hc'

theorem clean_old_objects_no_kill (s : BState) :
    ∀ o ∈ (clean_old s).objects, name_killed o.name = false := by
  intro o ho
  have h : (clean_old s).objects = (clean_step2 (clean_step1 s)).objects := rfl
  rw [h] at ho
  unfold clean_step2 remove_objects at ho
  simp only [List.mem_filter] at ho
  obtain ⟨ho1, ho2⟩ := ho
  by_contra hk
  rw [Bool.not_eq_false] at hk
  have hmem : o.name ∈ ((clean_step1 s).objects.filter
      (fun o => name_killed o.name)).map BObject.name :=
    List.mem_map.mpr ⟨o, List.mem_filter.mpr ⟨ho1, hk⟩, rfl⟩
  simp only [Bool.not_eq_true'] at ho2
  rw [← Bool.not_eq_true] at ho2
  exact ho2 (by simpa using hmem)

theorem clean_old_meshes_used (s : BState) :
    ∀ m ∈ (clean_old s).meshes, (mesh_users (clean_old s) m == 0) = false := by
  intro m hm
  have hmesh : (clean_old s).meshes = (clean_step3 (clean_step2 (clean_step1 s))).meshes := rfl
  rw [hmesh] at hm
  unfold clean_step3 at hm
  have h2 := (List.mem_filter.mp hm).2
  have husers : mesh_users (clean_old s) m = mesh_users (clean_step2 (clean_step1 s)) m := rfl
  rw [husers]
  simpa using h2

theorem clean_old_ng (s : BState) :
    ∀ n ∈ (clean_old s).node_groups, kill_ng_names.contains n = false := by
  intro n hn
  have h : (clean_old s).node_groups =
      (clean_step3 (clean_step2 (clean_step1 s))).node_groups.filter
        (fun n => !kill_ng_names.contains n) := rfl
  rw [h] at hn
  simpa using (List.mem_filter.mp hn).2

theorem clean_step1_id (s : BState)
    (h : ∀ c ∈ s.collections, kill_coll_names.contains c.name = false) :
    clean_step1 s = s := by
  have hv : coll_victims s = [] := by
    unfold coll_victims
    have hf : s.collections.filter (fun c => kill_coll_names.contains c.name) = [] := by
      rw [List.filter_eq_nil_iff]
      intro c hc
      simpa using (contains_eq_false_iff _ _).mp (h c hc)
    rw [hf]
    rfl
  unfold clean_step1
  simp only []
  rw [hv, remove_objects_nil]
  have hf : s.collections.filter (fun c => !kill_coll_names.contains c.name) = s.collections :=
    List.filter_eq_self.mpr (fun c hc => by
      simpa using (contains_eq_false_iff _ _).mp (h c hc))
  rw [hf]

theorem clean_step2_id (s : BState)
    (h : ∀ o ∈ s.objects, name_killed o.name = false) :
    clean_step2 s = s := by
  unfold clean_step2
  have hf : s.objects.filter (fun o => name_killed o.name) = [] := by
    rw [List.filter_eq_nil_iff]
    intro o ho
    simp [h o ho]
  rw [hf]
  exact remove_objects_nil s

theorem clean_step3_id (s : BState)
    (h : ∀ m ∈ s.meshes, (mesh_users s m == 0) = false) :
    clean_step3 s = s := by
  unfold clean_step3
  have hf : s.meshes.filter (fun m => !(mesh_users s m == 0)) = s.meshes :=
    List.filter_eq_self.mpr (fun m hm => by simp [h m hm])
  rw [hf]

theorem clean_step4_id (s : BState)
    (h : ∀ n ∈ s.node_groups, kill_ng_names.contains n = false) :
    clean_step4 s = s := by
  unfold clean_step4
  have hf : s.node_groups.filter (fun n => !kill_ng_names.contains n) = s.node_groups :=
    List.filter_eq_self.mpr (fun n hn => by
      simpa using (contains_eq_false_iff _ _).mp (h n hn))
  rw [hf]

theorem clean_old_idem (s : BState) : clean_old (clean_old s) = clean_old s := by
  have h1 : clean_step1 (clean_old s) = clean_old s :=
    clean_step1_id _ (clean_old_coll_names s)
  have h2 : clean_step2 (clean_old s) = clean_old s :=
    clean_step2_id _ (clean_old_objects_no_kill s)
  have h3 : clean_step3 (clean_old s) = clean_old s :=
    clean_step3_id _ (clean_old_meshes_used s)
  have h4 : clean_step4 (clean_old s) = clean_old s :=
    clean_step4_id _ (clean_old_ng s)
  show clean_step4 (clean_step3 (clean_step2 (clean_step1 (clean_old s)))) = clean_old s
  rw [h1, h2, h3, h4]

theorem clean_old_objects_mem_iff (s : BState)
    (hnodup : (s.objects.map BObject.name).Nodup) (o : BObject) (ho : o ∈ s.objects) :
    o ∈ (clean_old s).objects ↔
      (name_killed o.name = false ∧ (coll_victims s).contains o.name = false) := by
  have hobj : (clean_old s).objects = (clean_step2 (clean_step1 s)).objects := rfl
  have hs1 : (clean_step1 s).objects =
      s.objects.filter (fun o => !(coll_victims s).contains o.name) := rfl
  rw [hobj]
  unfold clean_step2 remove_objects
  simp only [List.mem_filter]
  constructor
  · rintro ⟨h1, h2⟩
    have hvic := (List.mem_filter.mp (hs1 ▸ h1)).2
    constructor
    · by_contra hk
      rw [Bool.not_eq_false] at hk
      have hmem : o.name ∈ ((clean_step1 s).objects.filter
          (fun o => name_killed o.name)).map BObject.name :=
        List.mem_map.mpr ⟨o, List.mem_filter.mpr ⟨h1, hk⟩, rfl⟩
      simp only [Bool.not_eq_true'] at h2
      rw [← Bool.not_eq_true] at h2
      exact h2 (by simpa using hmem)
    · simpa using hvic
  · rintro ⟨hk, hv⟩
    have h1 : o ∈ (clean_step1 s).objects := by
      rw [hs1]
      exact List.mem_filter.mpr ⟨ho, by
        simpa using (contains_eq_false_iff _ _).mp hv⟩
    refine ⟨h1, ?_⟩
    simp only [Bool.not_eq_true']
    rw [← Bool.not_eq_true]
    intro hcont
    have hmem : o.name ∈ ((clean_step1 s).objects.filter
        (fun o => name_killed o.name)).map BObject.name := by simpa using hcont
    obtain ⟨o', ho', hname⟩ := List.mem_map.mp hmem
    have ho'f := List.mem_filter.mp ho'
    have ho's : o' ∈ s.objects := (List.mem_filter.mp (hs1 ▸ ho'f.1)).1
    have : o' = o := List.inj_on_of_nodup_map hnodup ho's ho hname
    rw [this] at ho'f
    rw [ho'f.2] at hk
    simp at hk

/-! ### Controller assignment lemmas -/
theorem assign_go_ok_iff (raises : String → Bool) :
    ∀ (socks : List IfaceSocket) (vals : List SockVal),
      (assign_go raises socks vals).2 = none ↔
        (vals.length ≤ socks.length ∧
          ∀ sk ∈ socks.take vals.length, raises sk.identifier = false) := by
  intro socks vals
  induction vals generalizing socks with
  | nil => simp [assign_go]
  | cons v vs ih =>
    cases socks with
    | nil => simp [assign_go]
    | cons sk sks =>
      unfold assign_go
      by_cases hr : raises sk.identifier = true
      · rw [if_pos hr]
        constructor
        · intro h
          exact absurd h (by simp)
        · rintro ⟨-, hall⟩
          have hf := hall sk (by simp)
          rw [hr] at hf
          exact absurd hf (by simp)
      · rw [if_neg hr]
        have hgoal : (assign_go raises sks vs).2 = none ↔
            (vs.length ≤ sks.length ∧
              ∀ sk' ∈ sks.take vs.length, raises sk'.identifier = false) := ih sks
        constructor
        · intro h
          obtain ⟨hlen, hall⟩ := hgoal.mp h
          refine ⟨by simp only [List.length_cons]; exact Nat.succ_le_succ hlen, ?_⟩
          intro sk' hsk'
          simp only [List.length_cons, List.take_succ_cons, List.mem_cons] at hsk'
          rcases hsk' with rfl | hsk'
          · simpa using hr
          · exact hall sk' hsk'
        · rintro ⟨hlen, hall⟩
          refine hgoal.mpr ⟨?_, ?_⟩
          · simp only [List.length_cons] at hlen
            omega
          · intro sk' hsk'
            exact hall sk' (by simp [hsk'])

theorem assign_go_ok_assigned (raises : String → Bool) :
    ∀ (socks : List IfaceSocket) (vals : List SockVal),
      (assign_go raises socks vals).2 = none →
      (assign_go raises socks vals).1 =
        List.zipWith (fun sk v => (sk.identifier, v)) socks vals := by
  intro socks vals
  induction vals generalizing socks with
  | nil => intro h; simp [assign_go]
  | cons v vs ih =>
    cases socks with
    | nil => intro h; exact absurd h (by simp [assign_go])
    | cons sk sks =>
      intro h
      unfold assign_go at h ⊢
      by_cases hr : raises sk.identifier = true
      · rw [if_pos hr] at h
        exact absurd h (by simp)
      · rw [if_neg hr] at h ⊢
        simp only [List.zipWith_cons_cons]
        rw [ih sks h]


/-! ### Claim theorems for the render driver, cleanup and controller -/

/-- C4: every compositor output node created by the driver has, for a
non-primary view layer, path templates `renders/S/L/#_C` (combined) and
`renders/S/L/m_#_C` (mist); for the primary (first) view layer the same
paths without the `L/` component. -/
theorem C4_output_paths (sname : String) (env : Option String)
    (layers : List ViewLayer) (dfe : ℤ) (objects : List CameraObj)
    (o : OutputNode) (ho : o ∈ (render_scene sname env layers dfe objects).outputs) :
    (o.layerIndex ≠ 0 →
       o.imagePathArg =
         "renders/" ++ sname ++ "/" ++ o.layerName ++ "/" ++ "#_" ++ o.cameraName ∧
       o.mistPathArg =
         "renders/" ++ sname ++ "/" ++ o.layerName ++ "/" ++ "m_#_" ++ o.cameraName) ∧
    (o.layerIndex = 0 →
       o.imagePathArg = "renders/" ++ sname ++ "/" ++ "#_" ++ o.cameraName ∧
       o.mistPathArg = "renders/" ++ sname ++ "/" ++ "m_#_" ++ o.cameraName) := by
  obtain ⟨hi, hm⟩ := run_driver_outputs_form sname env layers dfe _ o ho
  constructor
  · intro hnz
    rw [if_neg hnz] at hi hm
    rw [hi, hm]
    constructor <;> simp [String.append_assoc]
  · intro hz
    rw [if_pos hz] at hi hm
    rw [hi, hm]
    constructor <;> simp [String.append_assoc]

/-- Witness for C4: a concrete two-layer run, checked on the non-primary
layer output. -/
theorem C4_output_paths_witness :
    (⟨1, "fx", "0", "renders/s/fx/#_0", "renders/s/fx/m_#_0"⟩ : OutputNode) ∈
        (render_scene "s" none
          [⟨"main", .node 1 false []⟩, ⟨"fx", .node 1 false []⟩] 0
          [⟨"Camera_0", "CAMERA", false, [1], none⟩]).outputs ∧
      "renders/s/fx/#_0" =
        "renders/" ++ "s" ++ "/" ++ "fx" ++ "/" ++ "#_" ++ "0" ∧
      "renders/s/fx/m_#_0" =
        "renders/" ++ "s" ++ "/" ++ "fx" ++ "/" ++ "m_#_" ++ "0" :=
  ⟨by decide,
    (C4_output_paths "s" none
      [⟨"main", .node 1 false []⟩, ⟨"fx", .node 1 false []⟩] 0
      [⟨"Camera_0", "CAMERA", false, [1], none⟩]
      ⟨1, "fx", "0", "renders/s/fx/#_0", "renders/s/fx/m_#_0"⟩ (by decide)).1
      (by decide)⟩

/-- C3 (counterexample): a non-skipped camera named `"Camera_0"` is not
literally named `"0"`, yet the driver renders it with sample count `4`, not
the configured `SAMPLES`: line 70 strips a `"Camera_"` prefix before the
comparison on line 76. -/
theorem C3_sample_count_counterexample :
    ∃ ev ∈ (render_scene "s" none [⟨"main", .node 1 false []⟩] 0
        [⟨"Camera_0", "CAMERA", false, [1], none⟩]).renders,
      ev.cam.name ≠ "0" ∧ ev.samples ≠ SAMPLES := by decide

/-- C3 (amended): the sample count of every render equals `4` exactly when
the camera name with a leading `"Camera_"` prefix removed is `"0"`, and the
configured `SAMPLES` otherwise. -/
theorem C3_sample_count (sname : String) (env : Option String)
    (layers : List ViewLayer) (dfe : ℤ) (objects : List CameraObj)
    (ev : RenderEv) (h : ev ∈ (render_scene sname env layers dfe objects).renders) :
    ev.samples = if camera_display_name ev.cam.name = "0" then 4 else SAMPLES :=
  (run_driver_samples sname env layers dfe _ ev h).2

/-- Witness for C3 at a camera named `"Camera_1"`, rendered with the
configured sample count. -/
theorem C3_sample_count_witness :
    (⟨⟨"Camera_1", "CAMERA", false, [1], none⟩, "1", SAMPLES, false⟩ : RenderEv) ∈
        (render_scene "s" none [⟨"main", .node 1 false []⟩] 0
          [⟨"Camera_1", "CAMERA", false, [1], none⟩]).renders ∧
      (⟨⟨"Camera_1", "CAMERA", false, [1], none⟩, "1", SAMPLES, false⟩ : RenderEv).samples
        = if camera_display_name "Camera_1" = "0" then 4 else SAMPLES :=
  ⟨by decide,
    C3_sample_count "s" none [⟨"main", .node 1 false []⟩] 0
      [⟨"Camera_1", "CAMERA", false, [1], none⟩] _ (by decide)⟩

/-- C7: a camera whose name contains `"-noimp"`, or whose `hide_render`
flag is set, is never assigned as the active render camera and no render is
triggered through it. -/
theorem C7_skipped_cameras (sname : String) (env : Option String)
    (layers : List ViewLayer) (dfe : ℤ) (objects : List CameraObj) (c : CameraObj)
    (hskip : strContainsSub c.name "-noimp" = true ∨ c.hide_render = true) :
    c ∉ (render_scene sname env layers dfe objects).assigned ∧
    ∀ ev ∈ (render_scene sname env layers dfe objects).renders, ev.cam ≠ c :=
  run_driver_skips sname env layers dfe c hskip _

/-- Witness for C7 at a concrete `-noimp`-tagged camera. -/
theorem C7_skipped_cameras_witness :
    strContainsSub "Camera_2-noimp" "-noimp" = true ∧
    ((⟨"Camera_2-noimp", "CAMERA", false, [1], none⟩ : CameraObj) ∉
        (render_scene "s" none [⟨"main", .node 1 false []⟩] 0
          [⟨"Camera_2-noimp", "CAMERA", false, [1], none⟩,
           ⟨"Camera_1", "CAMERA", false, [1], none⟩]).assigned ∧
      ∀ ev ∈ (render_scene "s" none [⟨"main", .node 1 false []⟩] 0
          [⟨"Camera_2-noimp", "CAMERA", false, [1], none⟩,
           ⟨"Camera_1", "CAMERA", false, [1], none⟩]).renders,
        ev.cam ≠ ⟨"Camera_2-noimp", "CAMERA", false, [1], none⟩) :=
  ⟨by decide,
    C7_skipped_cameras "s" none [⟨"main", .node 1 false []⟩] 0
      [⟨"Camera_2-noimp", "CAMERA", false, [1], none⟩,
       ⟨"Camera_1", "CAMERA", false, [1], none⟩]
      ⟨"Camera_2-noimp", "CAMERA", false, [1], none⟩ (Or.inl (by decide))⟩

/-- C8: the cleanup pass is idempotent, it keeps exactly the objects that
neither match the denylist (exact or `"."`/`"_"`-separated suffix) nor
belong to a `"TBM_Ring"`/`"Tunnel"` collection, and it maps the empty scene
to itself.  Object names are assumed unique, as the host enforces. -/
theorem C8_clean_old_contract (s : BState)
    (hnodup : (s.objects.map BObject.name).Nodup) :
    clean_old (clean_old s) = clean_old s ∧
    (∀ o ∈ s.objects, (o ∈ (clean_old s).objects ↔
        (name_killed o.name = false ∧ (coll_victims s).contains o.name = false))) ∧
    clean_old empty_scene = empty_scene :=
  ⟨clean_old_idem s, fun o ho => clean_old_objects_mem_iff s hnodup o ho, rfl⟩

/-- Witness for C8 on `sample_scene` and its surviving object `"K"`. -/
theorem C8_clean_old_contract_witness :
    clean_old (clean_old sample_scene) = clean_old sample_scene ∧
    ((⟨"K", some "M2"⟩ : BObject) ∈ (clean_old sample_scene).objects ↔
      (name_killed "K" = false ∧
        (coll_victims sample_scene).contains "K" = false)) ∧
    clean_old empty_scene = empty_scene :=
  ⟨(C8_clean_old_contract sample_scene (by decide)).1,
   (C8_clean_old_contract sample_scene (by decide)).2.1 ⟨"K", some "M2"⟩ (by decide),
   (C8_clean_old_contract sample_scene (by decide)).2.2⟩

theorem C9_controller_guard (raises : String → Bool) (items : List IfaceSocket) :
    (controller_section raises items).isOk = true ∧
    (∀ e, (controller_inputs_try raises items).2 = some e →
      controller_section raises items =
        .ok ⟨(controller_inputs_try raises items).1,
             some ("Could not auto-assign: " ++ e)⟩) ∧
    ((controller_inputs_try raises items).2 = none →
      controller_section raises items =
        .ok ⟨List.zipWith (fun sk v => (sk.identifier, v))
              (input_sockets items) controller_input_vals, none⟩ ∧
      (List.zipWith (fun sk v => (sk.identifier, v))
        (input_sockets items) controller_input_vals).length = 7) := by
  refine ⟨?_, ?_, ?_⟩
  · unfold controller_section
    cases hp : controller_inputs_try raises items with
    | mk as err => cases err <;> rfl
  · intro e he
    unfold controller_section
    cases hp : controller_inputs_try raises items with
    | mk as err =>
      have herr : err = some e := by rw [hp] at he; exact he
      subst herr
      simp only [hp]
  · intro hok
    constructor
    · unfold controller_section
      cases hp : controller_inputs_try raises items with
      | mk as err =>
        have herr : err = none := by rw [hp] at hok; exact hok
        subst herr
        have has : as = List.zipWith (fun sk v => (sk.identifier, v))
            (input_sockets items) controller_input_vals := by
          have := assign_go_ok_assigned raises (input_sockets items) controller_input_vals
            (by rw [show assign_go raises (input_sockets items) controller_input_vals
                  = controller_inputs_try raises items from rfl, hp])
          rw [show assign_go raises (input_sockets items) controller_input_vals
                = controller_inputs_try raises items from rfl, hp] at this
          exact this
        subst has
        simp only [hp]
    · have hlen := (assign_go_ok_iff raises (input_sockets items) controller_input_vals).mp
        (by rw [show assign_go raises (input_sockets items) controller_input_vals
              = controller_inputs_try raises items from rfl]; exact hok)
      rw [List.length_zipWith]
      have h7 : controller_input_vals.length = 7 := rfl
      rw [h7] at hlen ⊢
      omega

/-- Witness for C9 with non-raising host assignment and the seven input
sockets plus the output socket of the assembled graph. -/
theorem C9_controller_guard_witness :
    ((controller_section (fun _ => false)
        [⟨"Segment (Regular)", "Socket_0", "INPUT"⟩,
         ⟨"Segment (Key)", "Socket_1", "INPUT"⟩,
         ⟨"Ring Count", "Socket_2", "INPUT"⟩,
         ⟨"Ring Spacing", "Socket_3", "INPUT"⟩,
         ⟨"Rot Jitter Deg", "Socket_4", "INPUT"⟩,
         ⟨"Pos Jitter", "Socket_5", "INPUT"⟩,
         ⟨"Seed", "Socket_6", "INPUT"⟩,
         ⟨"Geometry", "Socket_7", "OUTPUT"⟩]).isOk = true) ∧
    (controller_section (fun _ => false)
        [⟨"Segment (Regular)", "Socket_0", "INPUT"⟩,
         ⟨"Segment (Key)", "Socket_1", "INPUT"⟩,
         ⟨"Ring Count", "Socket_2", "INPUT"⟩,
         ⟨"Ring Spacing", "Socket_3", "INPUT"⟩,
         ⟨"Rot Jitter Deg", "Socket_4", "INPUT"⟩,
         ⟨"Pos Jitter", "Socket_5", "INPUT"⟩,
         ⟨"Seed", "Socket_6", "INPUT"⟩,
         ⟨"Geometry", "Socket_7", "OUTPUT"⟩] =
      .ok ⟨List.zipWith (fun sk v => (sk.identifier, v))
            (input_sockets
              [⟨"Segment (Regular)", "Socket_0", "INPUT"⟩,
               ⟨"Segment (Key)", "Socket_1", "INPUT"⟩,
               ⟨"Ring Count", "Socket_2", "INPUT"⟩,
               ⟨"Ring Spacing", "Socket_3", "INPUT"⟩,
               ⟨"Rot Jitter Deg", "Socket_4", "INPUT"⟩,
               ⟨"Pos Jitter", "Socket_5", "INPUT"⟩,
               ⟨"Seed", "Socket_6", "INPUT"⟩,
               ⟨"Geometry", "Socket_7", "OUTPUT"⟩])
            controller_input_vals, none⟩) :=
  ⟨(C9_controller_guard (fun _ => false) _).1,
   ((C9_controller_guard (fun _ => false)
      [⟨"Segment (Regular)", "Socket_0", "INPUT"⟩,
       ⟨"Segment (Key)", "Socket_1", "INPUT"⟩,
       ⟨"Ring Count", "Socket_2", "INPUT"⟩,
       ⟨"Ring Spacing", "Socket_3", "INPUT"⟩,
       ⟨"Rot Jitter Deg", "Socket_4", "INPUT"⟩,
       ⟨"Pos Jitter", "Socket_5", "INPUT"⟩,
       ⟨"Seed", "Socket_6", "INPUT"⟩,
       ⟨"Geometry", "Socket_7", "OUTPUT"⟩]).2.2 rfl).1⟩

theorem C10_unguarded_dereference (sname : String) (env : Option String)
    (layers : List ViewLayer) (dfe : ℤ) (objects : List CameraObj) (c : CameraObj)
    (hmem : c ∈ objects)
    (htype : c.otype = "CAMERA")
    (hnoimp : strContainsSub c.name "-noimp" = false)
    (hhide : c.hide_render = false)
    (henv : env_filtered env (camera_display_name c.name) = false)
    (hbad : (c.users_collection = [] ∧ layers ≠ []) ∨
      (∃ c0, c.users_collection.head? = some c0 ∧
        ∃ l ∈ layers, strStartsWith l.name "_" = false ∧
          (find_layer_collection l.layer_collection c0).isNone = true)) :
    ((render_scene sname env layers dfe objects).err).isSome = true :=
  run_driver_err sname env layers dfe c htype hnoimp hhide henv hbad _
    (List.mem_filter.mpr ⟨hmem, by simp [htype]⟩)

/-- C10 (counterexample to the unamended claim): with a single `"_"`-named
view layer, `find_layer_collection` returns `None` for a non-skipped
camera, yet the run completes without error; likewise a camera with no
collections raises nothing when there is no view layer to iterate. -/
theorem C10_unguarded_dereference_counterexample :
    ((render_scene "s" none [⟨"_hidden", .node 1 false []⟩] 0
        [⟨"Camera_1", "CAMERA", false, [5], none⟩]).err = none ∧
      (find_layer_collection (LCTree.node 1 false []) 5).isNone = true ∧
      strContainsSub "Camera_1" "-noimp" = false) ∧
    (render_scene "s" none [] 0
        [⟨"Camera_1", "CAMERA", false, [], none⟩]).err = none :=
  ⟨⟨rfl, rfl, by decide⟩, rfl⟩

/-- Witness for C10: a camera whose collection occurs in no view layer
hierarchy aborts the run. -/
theorem C10_unguarded_dereference_witness :
    ((render_scene "s" none [⟨"main", LCTree.node 1 false []⟩] 0
        [⟨"Camera_1", "CAMERA", false, [5], none⟩]).err).isSome = true :=
  C10_unguarded_dereference "s" none [⟨"main", LCTree.node 1 false []⟩] 0
    [⟨"Camera_1", "CAMERA", false, [5], none⟩]
    ⟨"Camera_1", "CAMERA", false, [5], none⟩
    (List.mem_singleton.mpr rfl) rfl (by decide) rfl rfl
    (Or.inr ⟨5, rfl, ⟨"main", LCTree.node 1 false []⟩,
      List.mem_singleton.mpr rfl, by decide, rfl⟩)
